import Mathlib

/-!
Verification of the batch extraction subsystem of the aleou repository.

Shallow embedding of the code in:
  src/modules/rate_limiter.py      (RateLimiter)
  src/cache/gmaps_cache.py         (GoogleMapsCache)
  src/modules/parallel_processor.py    (ParallelHotelProcessor, v1)
  src/modules/parallel_processor_db.py (ParallelHotelProcessorDB)
  src/modules/database_service.py  (DatabaseService watchdog and finalization)

Wall-clock instants and durations are modeled as rationals.  Python dicts
used as records become structures, dicts used as maps become association
lists, and per-task exception outcomes (asyncio.gather with
return_exceptions=True) become Except values.
-/

namespace Aleou

/-! Rate limiter, from src/modules/rate_limiter.py. -/

/-- RateLimitConfig dataclass (rate_limiter.py lines 13-19). -/
structure RateLimitConfig where
  requestsPerMinute : Nat
  requestsPerSecond : Nat
  burstRequests : Nat
  cooldownSeconds : Nat
deriving Repr, DecidableEq

/-- Mutable fields of RateLimiter (rate_limiter.py lines 25-31). -/
structure RateLimiterState where
  requestsHistory : List ℚ
  isCoolingDown : Bool
  cooldownUntil : ℚ
  consecutiveErrors : Nat
deriving Repr, DecidableEq

/-- RateLimiter._clean_history: keep only request timestamps strictly newer
than one minute before the current time (rate_limiter.py lines 78-84). -/
def cleanHistory (currentTime : ℚ) (history : List ℚ) : List ℚ :=
  history.filter (fun reqTime => decide (reqTime > currentTime - 60))

/-- Requests of the last second, as filtered inside RateLimiter._should_wait
and RateLimiter._calculate_wait_time (rate_limiter.py lines 95-98, 115-118). -/
def recentRequests (currentTime : ℚ) (history : List ℚ) : List ℚ :=
  history.filter (fun reqTime => decide (reqTime > currentTime - 1))

/-- RateLimiter._should_wait (rate_limiter.py lines 86-103). -/
def shouldWait (cfg : RateLimitConfig) (history : List ℚ) (currentTime : ℚ) : Bool :=
  decide (history.length ≥ cfg.requestsPerMinute) ||
    decide ((recentRequests currentTime history).length ≥ cfg.requestsPerSecond)

/-- Minimum of a list of rationals, 0 on the empty list; stands for the
Python builtin min applied to a nonempty list. -/
def listMin : List ℚ → ℚ
  | [] => 0
  | x :: xs => xs.foldl min x

/-- RateLimiter._calculate_wait_time (rate_limiter.py lines 105-123). -/
def calculateWaitTime (cfg : RateLimitConfig) (history : List ℚ) (currentTime : ℚ) : ℚ :=
  if history.length ≥ cfg.requestsPerMinute then
    max 0 (60 - (currentTime - listMin history))
  else if recentRequests currentTime history ≠ [] then
    max 0 (1 - (currentTime - listMin (recentRequests currentTime history)))
  else 0

/-- Outcome of one acquire call: the total time the caller slept, the state
left behind, and the returned boolean. -/
structure AcquireResult where
  totalWait : ℚ
  state : RateLimiterState
  admitted : Bool
deriving Repr

/-- RateLimiter.acquire for a single caller with no interleaved mutation
(rate_limiter.py lines 33-76): an initial sleep while a cooldown is active
(the stale-time recheck at lines 49-51 never clears the flag since it
compares the pre-sleep time), then under the lock the history is cleaned and
a wait is computed, the task sleeps outside the lock, and finally the request
is recorded at the post-sleep instant and True is returned. -/
def acquire (cfg : RateLimitConfig) (st : RateLimiterState) (t : ℚ) : AcquireResult :=
  let wait1 : ℚ :=
    if st.isCoolingDown ∧ t < st.cooldownUntil then max 0 (st.cooldownUntil - t) else 0
  let t1 := t + wait1
  let h1 := cleanHistory t1 st.requestsHistory
  let wait2 : ℚ := if shouldWait cfg h1 t1 then calculateWaitTime cfg h1 t1 else 0
  let t2 := t1 + wait2
  { totalWait := wait1 + wait2
    state := { st with requestsHistory := h1 ++ [t2] }
    admitted := true }

/-- RateLimiter.handle_error (rate_limiter.py lines 125-155), called at
instant t: a 429 increments the error counter and installs the exponential
cooldown, a 5xx increments the counter and installs the reduced cooldown,
any other code leaves the state unchanged. -/
def handleError (st : RateLimiterState) (statusCode : ℤ) (t : ℚ) : RateLimiterState :=
  if statusCode = 429 then
    let n := st.consecutiveErrors + 1
    let cooldownTime : ℚ := min (10 * 2 ^ (min n 3)) 60
    { st with consecutiveErrors := n, isCoolingDown := true, cooldownUntil := t + cooldownTime }
  else if 500 ≤ statusCode ∧ statusCode < 600 then
    let n := st.consecutiveErrors + 1
    let cooldownTime : ℚ := if n ≥ 5 then 5 else min (5 * n) 15
    { st with consecutiveErrors := n, isCoolingDown := true, cooldownUntil := t + cooldownTime }
  else st

/-- RateLimiter.reset_errors (rate_limiter.py lines 157-159). -/
def resetErrors (st : RateLimiterState) : RateLimiterState :=
  { st with consecutiveErrors := 0 }

/-- Two concurrent callers both execute the locked decision phase of acquire
before either records its request, as the code permits: the lock is released
before the sleep, and the append happens in a second critical section
(rate_limiter.py lines 57-76).  Both compute their wait from the same
history, sleep, and append their post-sleep timestamps. -/
def twoCallerAcquireHistory (cfg : RateLimitConfig) (history : List ℚ) (t : ℚ) : List ℚ :=
  let h1 := cleanHistory t history
  let waitA : ℚ := if shouldWait cfg h1 t then calculateWaitTime cfg h1 t else 0
  let h2 := cleanHistory t h1
  let waitB : ℚ := if shouldWait cfg h2 t then calculateWaitTime cfg h2 t else 0
  h2 ++ [t + waitA, t + waitB]

/-- Number of recorded requests inside the sliding one-second window ending
at instant t. -/
def slidingSecondCount (history : List ℚ) (t : ℚ) : Nat :=
  (history.filter (fun r => decide (t - 1 < r) && decide (r ≤ t))).length

/-! Result cache, from src/cache/gmaps_cache.py. -/

/-- One cache entry as stored in GoogleMapsCache._data: a dict with keys
timestamp, value and ttl (gmaps_cache.py line 58); the ttl key is read back
with a default (line 46), hence the Option. -/
structure CacheEntry (α : Type) where
  timestamp : ℚ
  value : α
  ttl : Option ℚ
deriving Repr, DecidableEq

/-- State of GoogleMapsCache (gmaps_cache.py lines 13-22): the _data dict as
an association list from generated cache key to entry, the counters, and the
configured default ttl. -/
structure CacheState (α : Type) where
  data : List (String × CacheEntry α)
  hits : Nat
  misses : Nat
  expired : Nat
  ttl : ℚ
deriving Repr, DecidableEq

/-- Python dict assignment d[k] = v: replace in place when the key exists,
append otherwise. -/
def dictInsert {α : Type} (key : String) (v : CacheEntry α)
    (d : List (String × CacheEntry α)) : List (String × CacheEntry α) :=
  if (d.lookup key).isSome then
    d.map (fun p => if p.1 = key then (key, v) else p)
  else d ++ [(key, v)]

/-- Python del d[k]. -/
def dictErase {α : Type} (key : String)
    (d : List (String × CacheEntry α)) : List (String × CacheEntry α) :=
  d.filter (fun p => decide (p.1 ≠ key))

/-- GoogleMapsCache.get at instant now (gmaps_cache.py lines 39-53), keyed by
the generated cache key: a missing key counts a miss; a lapsed entry counts
one expired and one miss and is deleted; a live entry counts a hit and
returns its value. -/
def cacheGet {α : Type} (st : CacheState α) (now : ℚ) (key : String) :
    Option α × CacheState α :=
  match st.data.lookup key with
  | none => (none, { st with misses := st.misses + 1 })
  | some entry =>
    let entryTtl := entry.ttl.getD st.ttl
    if now - entry.timestamp > entryTtl then
      (none, { st with expired := st.expired + 1, misses := st.misses + 1,
                       data := dictErase key st.data })
    else
      (some entry.value, { st with hits := st.hits + 1 })

/-- GoogleMapsCache.set at instant now (gmaps_cache.py lines 55-58): stores a
fresh entry carrying the configured ttl, replacing any existing one. -/
def cacheSet {α : Type} (st : CacheState α) (now : ℚ) (key : String) (v : α) :
    CacheState α :=
  { st with data := dictInsert key ⟨now, v, some st.ttl⟩ st.data }

/-! Batch partitioning, identical in ParallelHotelProcessor._create_batches
(parallel_processor.py lines 207-223) and
ParallelHotelProcessorDB._create_batches (parallel_processor_db.py lines
338-349): the slice loop for i in range(0, len(data), batch_size). -/

/-- The slice loop of _create_batches for a positive batch size; a zero batch
size raises ValueError in Python (range step 0) and yields no batches here. -/
def createBatches {α : Type} (batchSize : Nat) (hotelsData : List α) :
    List (List α) :=
  match hotelsData with
  | [] => []
  | x :: xs =>
    if hbz : batchSize = 0 then []
    else (x :: xs).take batchSize :: createBatches batchSize ((x :: xs).drop batchSize)
termination_by hotelsData.length
decreasing_by
  simp only [List.length_drop, List.length_cons]
  exact Nat.sub_lt (Nat.succ_pos _) (Nat.pos_of_ne_zero hbz)

/-! Per-item result consolidation of the v1 processor, from
ParallelHotelProcessor._consolidate_hotel_results (parallel_processor.py
lines 527-596). -/

/-- Payload of a successful Cvent extraction (the data dict read at
parallel_processor.py lines 559-565). -/
structure CventData where
  sallesCount : Nat
  interfaceType : String
  csvFile : String
  headers : List String
  rows : List (List String)
deriving Repr, DecidableEq

/-- Result dict of a Cvent extraction as consumed by the consolidator: the
success flag, the data dict (read only when success is set) and the optional
error message. -/
structure CventResult where
  success : Bool
  data : CventData
  error : Option String
deriving Repr, DecidableEq

/-- Result dict of a Google Maps extraction as consumed by the consolidator
and by the DB pipeline: the extraction_status string, the discovered website
(empty string when absent, matching Python falsy checks) and the optional
error message. -/
structure GmapsResult where
  extractionStatus : String
  website : String
  error : Option String
deriving Repr, DecidableEq

/-- Result dict of a website extraction: the success flag, the website_data
dict (None or a possibly empty dict of fields) and the optional error. -/
structure WebsiteResult where
  success : Bool
  websiteData : Option (List (String × String))
  error : Option String
deriving Repr, DecidableEq

/-- The per-source results dict built by _process_single_hotel
(parallel_processor.py lines 383-431): a source that was not enabled or
whose task raised is absent (stored as None). -/
structure SourceResults where
  cvent : Option CventResult
  gmaps : Option GmapsResult
  website : Option WebsiteResult
deriving Repr, DecidableEq

/-- Input row of one work item (name, address, url). -/
structure HotelData where
  name : String
  address : String
  url : String
deriving Repr, DecidableEq

/-- Consolidated per-item result of the v1 processor (the dict built at
parallel_processor.py lines 542-596). -/
structure ConsolidatedResult where
  name : String
  address : String
  url : String
  success : Bool
  cventData : Option CventData
  gmapsData : Option GmapsResult
  websiteData : Option (List (String × String))
  errors : List String
deriving Repr, DecidableEq

/-- Success criterion the consolidator applies to a Cvent result
(parallel_processor.py line 557). -/
def cventSucceeded (r : Option CventResult) : Bool :=
  match r with
  | some c => c.success
  | none => false

/-- Success criterion the consolidator applies to a Google Maps result
(parallel_processor.py line 573). -/
def gmapsSucceeded (r : Option GmapsResult) : Bool :=
  match r with
  | some g => decide (g.extractionStatus = "success")
  | none => false

/-- Success criterion the consolidator applies to a website result
(parallel_processor.py lines 582-588): the success flag must be set and the
website_data dict must be present and nonempty (a Python truthiness check). -/
def websiteSucceeded (r : Option WebsiteResult) : Bool :=
  match r with
  | some w => w.success && (match w.websiteData with
      | some d => !d.isEmpty
      | none => false)
  | none => false

/-- ParallelHotelProcessor._consolidate_hotel_results (parallel_processor.py
lines 527-596): starts from success = False, copies each successful payload
and flips success to True, and appends one error string per present failed
source. -/
def consolidateHotelResults (hotelData : HotelData) (results : SourceResults) :
    ConsolidatedResult :=
  let base : ConsolidatedResult :=
    { name := hotelData.name, address := hotelData.address, url := hotelData.url
      success := false, cventData := none, gmapsData := none, websiteData := none
      errors := [] }
  let afterCvent :=
    match results.cvent with
    | none => base
    | some c =>
      if c.success then
        { base with
            cventData := some c.data
            success := true }
      else
        { base with errors := base.errors ++ ["Cvent: " ++ c.error.getD "Erreur inconnue"] }
  let afterGmaps :=
    match results.gmaps with
    | none => afterCvent
    | some g =>
      if g.extractionStatus = "success" then
        { afterCvent with gmapsData := some g, success := true }
      else
        { afterCvent with
            errors := afterCvent.errors ++ ["Google Maps: " ++ g.error.getD "Erreur inconnue"] }
  match results.website with
  | none => afterGmaps
  | some w =>
    if w.success then
      match w.websiteData with
      | some d =>
        if d.isEmpty then afterGmaps
        else { afterGmaps with websiteData := some d, success := true }
      | none => afterGmaps
    else
      { afterGmaps with
          errors := afterGmaps.errors ++ ["Website: " ++ w.error.getD "Erreur inconnue"] }

/-! Per-item processing of the DB pipeline, from
ParallelHotelProcessorDB._process_single_hotel (parallel_processor_db.py
lines 445-524).  The Phase-1 task outcomes delivered by asyncio.gather with
return_exceptions=True are modeled as Except values: error is a raised
exception, ok is the returned result dict. -/

/-- Per-item result dict of the DB pipeline (parallel_processor_db.py lines
463-470). -/
structure DbHotelResult where
  name : String
  success : Bool
  cventData : Option CventResult
  gmapsData : Option GmapsResult
  websiteData : Option WebsiteResult
  error : Option String
deriving Repr, DecidableEq

/-- ParallelHotelProcessorDB._process_single_hotel (parallel_processor_db.py
lines 445-524): a source exception leaves the corresponding field None, the
website phase runs only when the Google Maps result reports success and a
truthy website url, a website exception is swallowed, and the success flag is
then set to True unconditionally at line 517 (the surrounding except clause
is unreachable because gather captured the task exceptions). -/
def processSingleHotelDb (extractCvent extractGmaps extractWebsite : Bool)
    (hotelData : HotelData)
    (cventOutcome : Except String CventResult)
    (gmapsOutcome : Except String GmapsResult)
    (websiteOutcome : Except String WebsiteResult) : DbHotelResult :=
  let cventData : Option CventResult :=
    if extractCvent then
      match cventOutcome with
      | Except.ok r => some r
      | Except.error _ => none
    else none
  let gmapsData : Option GmapsResult :=
    if extractGmaps then
      match gmapsOutcome with
      | Except.ok r => some r
      | Except.error _ => none
    else none
  let websiteData : Option WebsiteResult :=
    if extractWebsite then
      match gmapsData with
      | some g =>
        if g.extractionStatus = "success" ∧ g.website ≠ "" then
          match websiteOutcome with
          | Except.ok r => some r
          | Except.error _ => none
        else none
      | none => none
    else none
  { name := hotelData.name
    success := true
    cventData := cventData
    gmapsData := gmapsData
    websiteData := websiteData
    error := none }

/-! Batch-level result handling. -/

/-- The consolidation loop of ParallelHotelProcessor.process_hotels_parallel
(parallel_processor.py lines 179-185): batch task outcomes from
asyncio.gather with return_exceptions=True are folded left to right; a batch
whose task raised is skipped with continue, a normal batch extends the
consolidated list. -/
def consolidateBatchResults {ρ : Type} (batchResults : List (Except String (List ρ))) :
    List ρ :=
  batchResults.foldl
    (fun acc br =>
      match br with
      | Except.ok rs => acc ++ rs
      | Except.error _ => acc)
    []

/-- ParallelHotelProcessorDB._process_and_save_batch (parallel_processor_db.py
lines 258-334): the whole body (prepare, extract, save, activity update,
callback) sits in one try; its outcome is modeled as an Except carrying the
returned success and error counts.  On any exception the batch reports zero
successes and every hotel of the batch as an error (line 334), and the
caller keeps scheduling the remaining batches. -/
def processAndSaveBatchCounts {α : Type} (batch : List α)
    (bodyOutcome : Except String (Nat × Nat)) : Nat × Nat :=
  match bodyOutcome with
  | Except.ok counts => counts
  | Except.error _ => (0, batch.length)

/-! Database service watchdog and finalization, from
src/modules/database_service.py.  The persistent store is modeled by the list
of hotel row statuses of the session and the session row itself; the
extraction_progress SQL view read by get_session_statistics is modeled by two
arbitrary nonnegative counters handed to the function. -/

/-- Extraction status of one persisted hotel row. -/
inductive HotelRowStatus where
  | completed
  | failed
  | pending
  | processing
deriving Repr, DecidableEq

/-- Persisted session row fields the watchdog and finalization read. -/
structure SessionRecord where
  status : String
  totalHotels : Nat
  lastActivity : Option ℚ
deriving Repr, DecidableEq

/-- Session fields written at finalization: the terminal status, the
processed_hotels counter and the (possibly corrected) total_hotels. -/
structure FinalizeOutcome where
  status : String
  processedHotels : Nat
  totalHotels : Nat
deriving Repr, DecidableEq

/-- DatabaseService._is_session_truly_inactive (database_service.py lines
348-384): a missing last_activity counts as inactive, otherwise the session
is inactive when more than three minutes passed. -/
def isSessionTrulyInactive (lastActivity : Option ℚ) (now : ℚ) : Bool :=
  match lastActivity with
  | none => true
  | some t => decide ((now - t) / 60 > 3)

/-- The _ensure_int helper of DatabaseService.finalize_session
(database_service.py lines 482-488): None falls back, a negative value is
clamped to zero. -/
def ensureInt (value : Option ℤ) (fallback : Nat) : Nat :=
  match value with
  | none => fallback
  | some i => i.toNat

/-- Number of hotel rows with the given status. -/
def countStatus (hotels : List HotelRowStatus) (s : HotelRowStatus) : Nat :=
  (hotels.filter (fun h => decide (h = s))).length

/-- DatabaseService.finalize_session (database_service.py lines 452-577) for
a session that exists, as a pure function of the persisted hotel rows, the
declared total, the success flag and optional counts passed by the caller,
and the completed and failed counters the extraction_progress view returns
to get_session_statistics. -/
def finalizeSession (hotels : List HotelRowStatus) (declaredTotal : Nat)
    (success : Bool) (successCount errorCount : Option ℤ)
    (statsCompleted statsFailed : Nat) : FinalizeOutcome :=
  let actualCount := hotels.length
  let completedInDb := countStatus hotels HotelRowStatus.completed
  let failedInDb := countStatus hotels HotelRowStatus.failed
  let computedSuccess := ensureInt successCount completedInDb
  let computedErrors := ensureInt errorCount failedInDb
  let processed0 := computedSuccess + computedErrors
  let processed1 := if processed0 > actualCount then actualCount else processed0
  let pending1 := actualCount - processed1
  let fallbackFires := success ∧ actualCount > 0 ∧ processed1 = 0
  let processed2 := if fallbackFires then actualCount else processed1
  let pending2 := if fallbackFires then 0 else pending1
  if actualCount ≠ declaredTotal then
    let status := if success ∧ processed2 > 0 then "completed" else "failed"
    { status := status
      processedHotels := if processed2 > 0 then processed2 else actualCount
      totalHotels := actualCount }
  else
    let status := if success then "completed" else "failed"
    let statsProcessed :=
      if successCount = none ∨ errorCount = none then statsCompleted + statsFailed else 0
    let processed3 :=
      if statsProcessed > 0 then max processed2 (min statsProcessed actualCount) else processed2
    let pending3 :=
      if statsProcessed > 0 then actualCount - processed3 else pending2
    let processed4 :=
      if ¬success ∧ processed3 = 0 ∧ actualCount > 0 then actualCount - pending3 else processed3
    { status := status
      processedHotels := processed4
      totalHotels := declaredTotal }

/-- The per-session body of DatabaseService.detect_and_fix_stuck_sessions
(database_service.py lines 396-441): sessions not in processing or still
active are left alone; otherwise an all-completed or partially-populated
session is finalized as a success and an empty session as a failure, always
with no explicit counts. -/
def watchdogStep (session : SessionRecord) (hotels : List HotelRowStatus)
    (now : ℚ) (statsCompleted statsFailed : Nat) : Option FinalizeOutcome :=
  if session.status = "processing" then
    if isSessionTrulyInactive session.lastActivity now then
      let actualCount := hotels.length
      let completedCount := countStatus hotels HotelRowStatus.completed
      if completedCount = actualCount ∧ actualCount > 0 then
        some (finalizeSession hotels session.totalHotels true none none
          statsCompleted statsFailed)
      else if actualCount > 0 then
        some (finalizeSession hotels session.totalHotels true none none
          statsCompleted statsFailed)
      else
        some (finalizeSession hotels session.totalHotels false none none
          statsCompleted statsFailed)
    else none
  else none

/-! Concrete values used to instantiate the theorems below. -/

/-- Default configuration of RateLimitConfig (rate_limiter.py lines 13-19). -/
def rlCfgEx : RateLimitConfig := ⟨60, 10, 5, 60⟩

/-- Configuration capped at one request per second. -/
def rlCfgOnePerSec : RateLimitConfig := ⟨60, 1, 5, 60⟩

/-- Fresh limiter state as built by the constructor. -/
def rlStateEx : RateLimiterState := ⟨[], false, 0, 0⟩

/-- Fresh cache whose values are naturals, default ttl one hour. -/
def cacheEx : CacheState Nat := ⟨[], 0, 0, 0, 3600⟩

/-- Cache holding one entry written at instant 0 with a ttl of 10 seconds. -/
def cacheExpiredEx : CacheState Nat := ⟨[("k", ⟨0, 42, some 10⟩)], 0, 0, 0, 3600⟩

/-- A first sample work item. -/
def hotelAEx : HotelData := ⟨"Hotel Alpha", "1 rue A", "https://cvent.example/a"⟩

/-- A second sample work item. -/
def hotelBEx : HotelData := ⟨"Hotel Beta", "2 rue B", "https://cvent.example/b"⟩

/-- Consolidated result of the second sample work item. -/
def consolidatedBEx : ConsolidatedResult :=
  ⟨"Hotel Beta", "2 rue B", "https://cvent.example/b", true, none,
    some ⟨"success", "https://beta.example", none⟩, none, []⟩

/-- A failed Cvent result carrying an error message. -/
def cventFailEx : CventResult := ⟨false, ⟨0, "", "", [], []⟩, some "Page introuvable"⟩

/-- A successful Google Maps result. -/
def gmapsOkEx : GmapsResult := ⟨"success", "https://beta.example", none⟩

/-- A processing session declared at 500 items whose last activity was at
instant 0. -/
def sessionStuckEx : SessionRecord := ⟨"processing", 500, some 0⟩

/-! Helper lemmas. -/

/-- Folding min over a list yields either the seed or a list element. -/
theorem foldl_min_choice (xs : List ℚ) : ∀ x : ℚ, xs.foldl min x = x ∨ xs.foldl min x ∈ xs := by
  induction xs with
  | nil => intro x; left; rfl
  | cons y ys ih =>
    intro x
    have hstep : (y :: ys).foldl min x = ys.foldl min (min x y) := rfl
    rcases ih (min x y) with h | h
    · rcases min_choice x y with hm | hm
      · left; rw [hstep, h, hm]
      · right; rw [hstep, h, hm]; exact List.mem_cons_self y ys
    · right
      rw [hstep]
      exact List.mem_cons_of_mem y h

/-- The minimum of a nonempty list is one of its elements. -/
theorem listMin_mem (l : List ℚ) (h : l ≠ []) : listMin l ∈ l := by
  cases l with
  | nil => exact absurd rfl h
  | cons x xs =>
    rcases foldl_min_choice xs x with h1 | h1
    · simp [listMin, h1]
    · simp [listMin]
      right
      exact h1

/-- The computed wait time is never negative. -/
theorem calculateWaitTime_nonneg (cfg : RateLimitConfig) (h : List ℚ) (t : ℚ) :
    0 ≤ calculateWaitTime cfg h t := by
  unfold calculateWaitTime
  split
  · exact le_max_left _ _
  · split
    · exact le_max_left _ _
    · exact le_refl 0

/-- A list whose length reaches a positive bound is nonempty. -/
theorem ne_nil_of_length_ge_pos {α : Type} (l : List α) (n : Nat) (hn : 0 < n)
    (h : l.length ≥ n) : l ≠ [] := by
  intro he
  rw [he] at h
  simp at h
  omega

/-- Every element the history cleaner keeps is newer than one minute ago. -/
theorem mem_cleanHistory_gt (t : ℚ) (h : List ℚ) (r : ℚ) (hr : r ∈ cleanHistory t h) :
    r > t - 60 := by
  have := List.of_mem_filter hr
  simpa using this

/-- Every request counted as recent is newer than one second ago. -/
theorem mem_recentRequests_gt (t : ℚ) (h : List ℚ) (r : ℚ) (hr : r ∈ recentRequests t h) :
    r > t - 1 := by
  have := List.of_mem_filter hr
  simpa using this

/-- When the limits are exceeded on a cleaned history with positive caps, the
computed wait time is strictly positive. -/
theorem calculateWaitTime_pos (cfg : RateLimitConfig) (h0 : List ℚ) (t : ℚ)
    (hpm : 0 < cfg.requestsPerMinute) (hps : 0 < cfg.requestsPerSecond)
    (hw : shouldWait cfg (cleanHistory t h0) t = true) :
    0 < calculateWaitTime cfg (cleanHistory t h0) t := by
  have hminute : (cleanHistory t h0).length ≥ cfg.requestsPerMinute →
      0 < max 0 (60 - (t - listMin (cleanHistory t h0))) := by
    intro hmin
    have hne := ne_nil_of_length_ge_pos _ _ hpm hmin
    have hmem := listMin_mem _ hne
    have hgt : listMin (cleanHistory t h0) > t - 60 := mem_cleanHistory_gt t h0 _ hmem
    have hpos : 0 < 60 - (t - listMin (cleanHistory t h0)) := by linarith
    exact lt_max_of_lt_right hpos
  rcases (by simpa [shouldWait, Bool.or_eq_true, decide_eq_true_eq] using hw :
      (cleanHistory t h0).length ≥ cfg.requestsPerMinute ∨
        (recentRequests t (cleanHistory t h0)).length ≥ cfg.requestsPerSecond) with hmin | hsec
  · unfold calculateWaitTime
    rw [if_pos hmin]
    exact hminute hmin
  · by_cases hmin : (cleanHistory t h0).length ≥ cfg.requestsPerMinute
    · unfold calculateWaitTime
      rw [if_pos hmin]
      exact hminute hmin
    · have hne : recentRequests t (cleanHistory t h0) ≠ [] :=
        ne_nil_of_length_ge_pos _ _ hps hsec
      unfold calculateWaitTime
      rw [if_neg hmin, if_pos hne]
      have hmem := listMin_mem _ hne
      have hgt : listMin (recentRequests t (cleanHistory t h0)) > t - 1 :=
        mem_recentRequests_gt t _ _ hmem
      have hpos : 0 < 1 - (t - listMin (recentRequests t (cleanHistory t h0))) := by linarith
      exact lt_max_of_lt_right hpos

/-- An if-guarded wait time is never negative. -/
theorem ite_calcWait_nonneg (c : Prop) [Decidable c] (cfg : RateLimitConfig)
    (h : List ℚ) (t : ℚ) : (0 : ℚ) ≤ (if c then calculateWaitTime cfg h t else 0) := by
  split
  · exact calculateWaitTime_nonneg _ _ _
  · exact le_refl 0

/-- The total wait of one acquire call is never negative. -/
theorem acquire_totalWait_nonneg (cfg : RateLimitConfig) (st : RateLimiterState) (t : ℚ) :
    0 ≤ (acquire cfg st t).totalWait := by
  unfold acquire
  dsimp only
  apply add_nonneg
  · split
    · exact le_max_left _ _
    · exact le_refl 0
  · exact ite_calcWait_nonneg _ _ _ _

/-! Claim theorems. -/

/-- C3: handle_error with status 429 increments the consecutive-error
counter, switches cooling on, installs a cooldown of exactly
min(10 * 2 ^ min(consecutive_errors, 3), 60) seconds counted from the
current instant, and any acquire call issued while the window is open waits
at least the remaining cooldown before returning. -/
theorem handle429_cooldown_policy (cfg : RateLimitConfig) (st : RateLimiterState) (t : ℚ) :
    (handleError st 429 t).consecutiveErrors = st.consecutiveErrors + 1 ∧
    (handleError st 429 t).isCoolingDown = true ∧
    (handleError st 429 t).cooldownUntil =
      t + min ((10 : ℚ) * 2 ^ min (st.consecutiveErrors + 1) 3) 60 ∧
    ∀ t2 : ℚ, t2 < (handleError st 429 t).cooldownUntil →
      (acquire cfg (handleError st 429 t) t2).totalWait ≥
        (handleError st 429 t).cooldownUntil - t2 := by
  refine ⟨by simp [handleError], by simp [handleError], by simp [handleError], ?_⟩
  intro t2 ht2
  have hcool : (handleError st 429 t).isCoolingDown = true := by simp [handleError]
  unfold acquire
  dsimp only
  rw [if_pos ⟨by simp [hcool], ht2⟩]
  have h1 : (handleError st 429 t).cooldownUntil - t2 ≤
      max 0 ((handleError st 429 t).cooldownUntil - t2) := le_max_right _ _
  have h2 : (0 : ℚ) ≤ (if shouldWait cfg
      (cleanHistory (t2 + max 0 ((handleError st 429 t).cooldownUntil - t2))
        (handleError st 429 t).requestsHistory)
      (t2 + max 0 ((handleError st 429 t).cooldownUntil - t2)) then
        calculateWaitTime cfg
          (cleanHistory (t2 + max 0 ((handleError st 429 t).cooldownUntil - t2))
            (handleError st 429 t).requestsHistory)
          (t2 + max 0 ((handleError st 429 t).cooldownUntil - t2))
      else 0) := by
    split
    · exact calculateWaitTime_nonneg _ _ _
    · exact le_refl 0
  linarith

/-- Witness for C3 at the default configuration and a fresh limiter: one 429
at instant 0 yields one consecutive error, and an acquire issued at instant 1
inside the window waits at least the remaining cooldown. -/
theorem handle429_cooldown_policy_witness :
    (handleError rlStateEx 429 0).consecutiveErrors = 1 ∧
    (acquire rlCfgEx (handleError rlStateEx 429 0) 1).totalWait ≥
      (handleError rlStateEx 429 0).cooldownUntil - 1 := by
  have h := handle429_cooldown_policy rlCfgEx rlStateEx 0
  refine ⟨by simpa [rlStateEx] using h.1, h.2.2.2 1 ?_⟩
  have := h.2.2.1
  rw [this]
  norm_num [rlStateEx]

/-- C8: handle_error with a 5xx status installs a cooldown that is smaller
than and separately capped from the 429 cooldown: once the incremented
consecutive-error counter reaches 5 the cooldown is the fixed minimal 5
seconds, below the threshold it is min(5 * consecutive_errors, 15) seconds,
and it always stays at or below 15 seconds while every 429 cooldown is at
least 20 seconds. -/
theorem handle5xx_cooldown_policy (st : RateLimiterState) (code : ℤ) (t : ℚ)
    (h5 : 500 ≤ code) (h6 : code < 600) :
    (handleError st code t).consecutiveErrors = st.consecutiveErrors + 1 ∧
    (handleError st code t).isCoolingDown = true ∧
    (handleError st code t).cooldownUntil - t =
      (if st.consecutiveErrors + 1 ≥ 5 then (5 : ℚ)
       else min ((5 : ℚ) * ((st.consecutiveErrors + 1 : Nat) : ℚ)) 15) ∧
    (handleError st code t).cooldownUntil - t ≤ 15 ∧
    ∀ (st3 : RateLimiterState) (t3 : ℚ),
      (handleError st code t).cooldownUntil - t <
        (handleError st3 429 t3).cooldownUntil - t3 := by
  have hne : code ≠ 429 := by omega
  have herr : (handleError st code t).consecutiveErrors = st.consecutiveErrors + 1 := by
    unfold handleError
    rw [if_neg hne, if_pos ⟨h5, h6⟩]
  have hcool : (handleError st code t).isCoolingDown = true := by
    unfold handleError
    rw [if_neg hne, if_pos ⟨h5, h6⟩]
  have hcd : (handleError st code t).cooldownUntil =
      t + (if st.consecutiveErrors + 1 ≥ 5 then (5 : ℚ)
        else min ((5 : ℚ) * ((st.consecutiveErrors + 1 : Nat) : ℚ)) 15) := by
    unfold handleError
    rw [if_neg hne, if_pos ⟨h5, h6⟩]
  have hcap : (if st.consecutiveErrors + 1 ≥ 5 then (5 : ℚ)
      else min ((5 : ℚ) * ((st.consecutiveErrors + 1 : Nat) : ℚ)) 15) ≤ 15 := by
    split
    · norm_num
    · exact min_le_right _ _
  have h429 : ∀ (st3 : RateLimiterState) (t3 : ℚ),
      (20 : ℚ) ≤ (handleError st3 429 t3).cooldownUntil - t3 := by
    intro st3 t3
    have hb : (handleError st3 429 t3).cooldownUntil =
        t3 + min ((10 : ℚ) * 2 ^ min (st3.consecutiveErrors + 1) 3) 60 := by
      simp [handleError]
    rw [hb]
    have hexp : (1 : Nat) ≤ min (st3.consecutiveErrors + 1) 3 := by omega
    have hpow : (2 : ℚ) ^ (1 : Nat) ≤ 2 ^ min (st3.consecutiveErrors + 1) 3 :=
      pow_le_pow_right₀ (by norm_num) hexp
    have h20 : (20 : ℚ) ≤ 10 * 2 ^ min (st3.consecutiveErrors + 1) 3 := by
      have h2 : (2 : ℚ) ^ (1 : Nat) = 2 := by norm_num
      nlinarith
    have hmin : (20 : ℚ) ≤ min ((10 : ℚ) * 2 ^ min (st3.consecutiveErrors + 1) 3) 60 :=
      le_min h20 (by norm_num)
    linarith
  have hdiff : (handleError st code t).cooldownUntil - t =
      (if st.consecutiveErrors + 1 ≥ 5 then (5 : ℚ)
        else min ((5 : ℚ) * ((st.consecutiveErrors + 1 : Nat) : ℚ)) 15) := by
    rw [hcd]
    ring
  refine ⟨herr, hcool, hdiff, ?_, ?_⟩
  · rw [hdiff]
    exact hcap
  · intro st3 t3
    have h20 := h429 st3 t3
    have hlhs : (handleError st code t).cooldownUntil - t ≤ 15 := by
      rw [hdiff]
      exact hcap
    linarith

/-- Witness for C8 at a 503 on a fresh limiter at instant 0: one error,
cooling active, a 5-times-1 cooldown, below the 15 second cap and below
every 429 cooldown. -/
theorem handle5xx_cooldown_policy_witness :
    (handleError rlStateEx 503 0).consecutiveErrors = 1 ∧
    (handleError rlStateEx 503 0).cooldownUntil - 0 ≤ 15 ∧
    (handleError rlStateEx 503 0).cooldownUntil - 0 <
      (handleError rlStateEx 429 0).cooldownUntil - 0 := by
  have h := handle5xx_cooldown_policy rlStateEx 503 0 (by norm_num) (by norm_num)
  exact ⟨by simpa [rlStateEx] using h.1, h.2.2.2.1, h.2.2.2.2 rlStateEx 0⟩

/-- C10: acquire returns True on every call and in every state; admission
control only delays the caller by a nonnegative wait and then records the
request, and no code path rejects a request. -/
theorem acquire_never_rejects (cfg : RateLimitConfig) (st : RateLimiterState) (t : ℚ) :
    (acquire cfg st t).admitted = true ∧ 0 ≤ (acquire cfg st t).totalWait := by
  exact ⟨rfl, acquire_totalWait_nonneg cfg st t⟩

/-- C7 counterexample: with a cap of one request per second and one request
already recorded at instant 0, two callers that both pass the locked
decision phase at instant 0 before either records — an interleaving the code
permits since the sleep and the recording happen outside the decision lock —
both wait one second and both record at instant 1, so the recorded history
holds two requests inside the sliding one-second window ending at instant 1,
exceeding the cap. -/
theorem concurrent_acquire_exceeds_second_cap :
    rlCfgOnePerSec.requestsPerSecond = 1 ∧
    twoCallerAcquireHistory rlCfgOnePerSec [0] 0 = [0, 1, 1] ∧
    slidingSecondCount (twoCallerAcquireHistory rlCfgOnePerSec [0] 0) 1 = 2 := by
  have hhist : twoCallerAcquireHistory rlCfgOnePerSec [0] 0 = [0, 1, 1] := by
    norm_num [twoCallerAcquireHistory, cleanHistory, recentRequests, shouldWait,
      calculateWaitTime, listMin, rlCfgOnePerSec, List.filter]
  refine ⟨rfl, hhist, ?_⟩
  rw [hhist]
  norm_num [slidingSecondCount, List.filter]

/-- C7 amended: the decision phase of acquire grants a request with zero
wait exactly when no cooldown window is open, the cleaned history is below
the per-minute cap, and the count of requests in the last second is below
the per-second cap; under concurrent callers the recorded history can still
exceed the caps inside a sliding window, because the wait is computed before
sleeping and the request is recorded afterwards without re-checking. -/
theorem acquire_admission_characterization (cfg : RateLimitConfig)
    (st : RateLimiterState) (t : ℚ)
    (hps : 0 < cfg.requestsPerSecond) (hpm : 0 < cfg.requestsPerMinute) :
    (acquire cfg st t).totalWait = 0 ↔
      (¬(st.isCoolingDown = true ∧ t < st.cooldownUntil) ∧
       (cleanHistory t st.requestsHistory).length < cfg.requestsPerMinute ∧
       (recentRequests t (cleanHistory t st.requestsHistory)).length <
         cfg.requestsPerSecond) := by
  unfold acquire
  dsimp only
  by_cases hc : st.isCoolingDown = true ∧ t < st.cooldownUntil
  · rw [if_pos hc]
    have hpos : 0 < max 0 (st.cooldownUntil - t) :=
      lt_max_of_lt_right (by linarith [hc.2])
    constructor
    · intro h0
      exfalso
      have hw2 := ite_calcWait_nonneg
        (shouldWait cfg (cleanHistory (t + max 0 (st.cooldownUntil - t)) st.requestsHistory)
          (t + max 0 (st.cooldownUntil - t)) = true) cfg
        (cleanHistory (t + max 0 (st.cooldownUntil - t)) st.requestsHistory)
        (t + max 0 (st.cooldownUntil - t))
      linarith
    · intro hrhs
      exact absurd hc hrhs.1
  · rw [if_neg hc]
    simp only [add_zero, zero_add]
    by_cases hw : shouldWait cfg (cleanHistory t st.requestsHistory) t = true
    · rw [if_pos hw]
      have hpos := calculateWaitTime_pos cfg st.requestsHistory t hpm hps hw
      constructor
      · intro h0
        exfalso
        linarith
      · intro hrhs
        exfalso
        rcases (by simpa [shouldWait, Bool.or_eq_true, decide_eq_true_eq] using hw :
            (cleanHistory t st.requestsHistory).length ≥ cfg.requestsPerMinute ∨
              (recentRequests t (cleanHistory t st.requestsHistory)).length ≥
                cfg.requestsPerSecond) with h | h
        · exact absurd hrhs.2.1 (by omega)
        · exact absurd hrhs.2.2 (by omega)
    · rw [if_neg hw]
      constructor
      · intro _
        refine ⟨hc, ?_, ?_⟩
        · have hboth : ¬((cleanHistory t st.requestsHistory).length ≥ cfg.requestsPerMinute) ∧
              ¬((recentRequests t (cleanHistory t st.requestsHistory)).length ≥
                cfg.requestsPerSecond) := by
            simpa [shouldWait, Bool.or_eq_true, decide_eq_true_eq, not_or] using hw
          omega
        · have hboth : ¬((cleanHistory t st.requestsHistory).length ≥ cfg.requestsPerMinute) ∧
              ¬((recentRequests t (cleanHistory t st.requestsHistory)).length ≥
                cfg.requestsPerSecond) := by
            simpa [shouldWait, Bool.or_eq_true, decide_eq_true_eq, not_or] using hw
          omega
      · intro _
        rfl

/-- Witness for the amended C7 on the default configuration and a fresh
limiter at instant 0: the admission conditions hold and acquire indeed
proceeds with zero wait. -/
theorem acquire_admission_characterization_witness :
    (acquire rlCfgEx rlStateEx 0).totalWait = 0 := by
  exact (acquire_admission_characterization rlCfgEx rlStateEx 0 (by decide) (by decide)).mpr
    ⟨by decide, by decide, by decide⟩

/-- Joining the batches gives back the input list. -/
theorem createBatches_join {α : Type} (B : Nat) (hB : 0 < B) (l : List α) :
    (createBatches B l).flatten = l := by
  generalize hn : l.length = n
  induction n using Nat.strong_induction_on generalizing l with
  | _ n ih =>
    cases l with
    | nil => simp [createBatches]
    | cons x xs =>
      rw [createBatches, dif_neg (Nat.pos_iff_ne_zero.mp hB), List.flatten_cons]
      have hlt : ((x :: xs).drop B).length < n := by
        subst hn
        simp only [List.length_drop, List.length_cons]
        omega
      rw [ih _ hlt _ rfl]
      exact List.take_append_drop B (x :: xs)

/-- The batch list is empty exactly when the input is. -/
theorem createBatches_eq_nil_iff {α : Type} (B : Nat) (hB : 0 < B) (l : List α) :
    createBatches B l = [] ↔ l = [] := by
  cases l with
  | nil => simp [createBatches]
  | cons x xs =>
    rw [createBatches, dif_neg (Nat.pos_iff_ne_zero.mp hB)]
    simp

/-- Every batch other than the last has exactly the configured size. -/
theorem createBatches_dropLast_length {α : Type} (B : Nat) (hB : 0 < B) (l : List α) :
    ∀ b ∈ (createBatches B l).dropLast, b.length = B := by
  generalize hn : l.length = n
  induction n using Nat.strong_induction_on generalizing l with
  | _ n ih =>
    cases l with
    | nil => simp [createBatches]
    | cons x xs =>
      rw [createBatches, dif_neg (Nat.pos_iff_ne_zero.mp hB)]
      by_cases hrest : createBatches B ((x :: xs).drop B) = []
      · rw [hrest]
        simp
      · rw [List.dropLast_cons_of_ne_nil hrest]
        intro b hb
        rcases List.mem_cons.mp hb with hb1 | hb2
        · subst hb1
          have hdrop : (x :: xs).drop B ≠ [] := by
            intro hd
            rw [hd] at hrest
            exact hrest (by simp [createBatches])
          have hlen : B < (x :: xs).length := by
            by_contra hle
            push_neg at hle
            exact hdrop (List.drop_eq_nil_of_le hle)
          simp only [List.length_cons] at hlen
          simp only [List.length_take, List.length_cons]
          omega
        · have hlt : ((x :: xs).drop B).length < n := by
            subst hn
            simp only [List.length_drop, List.length_cons]
            omega
          exact ih _ hlt _ rfl b hb2

/-- No batch is empty. -/
theorem createBatches_mem_ne_nil {α : Type} (B : Nat) (hB : 0 < B) (l : List α) :
    ∀ b ∈ createBatches B l, b ≠ [] := by
  generalize hn : l.length = n
  induction n using Nat.strong_induction_on generalizing l with
  | _ n ih =>
    cases l with
    | nil => simp [createBatches]
    | cons x xs =>
      rw [createBatches, dif_neg (Nat.pos_iff_ne_zero.mp hB)]
      intro b hb
      rcases List.mem_cons.mp hb with hb1 | hb2
      · subst hb1
        obtain ⟨m, rfl⟩ := Nat.exists_eq_succ_of_ne_zero (Nat.pos_iff_ne_zero.mp hB)
        simp
      · have hlt : ((x :: xs).drop B).length < n := by
          subst hn
          simp only [List.length_drop, List.length_cons]
          omega
        exact ih _ hlt _ rfl b hb2

/-- C9: for every list of work items and every positive batch size, the
concatenation of the produced batches is the original list — every item in
exactly one batch, in order, no duplicates, no omissions — every batch except
possibly the last has exactly the configured size, and no batch is empty. -/
theorem create_batches_partition {α : Type} (B : Nat) (l : List α) (hB : 0 < B) :
    (createBatches B l).flatten = l ∧
    (∀ b ∈ (createBatches B l).dropLast, b.length = B) ∧
    (∀ b ∈ createBatches B l, b ≠ []) :=
  ⟨createBatches_join B hB l, createBatches_dropLast_length B hB l,
    createBatches_mem_ne_nil B hB l⟩

/-- Witness for C9: seven items in batches of three join back to the input
and the non-final batches all have three items. -/
theorem create_batches_partition_witness :
    (createBatches 3 [0, 1, 2, 3, 4, 5, 6]).flatten = [0, 1, 2, 3, 4, 5, 6] ∧
    ∀ b ∈ (createBatches 3 [0, 1, 2, 3, 4, 5, 6]).dropLast, b.length = 3 :=
  ⟨(create_batches_partition 3 [0, 1, 2, 3, 4, 5, 6] (by norm_num)).1,
   (create_batches_partition 3 [0, 1, 2, 3, 4, 5, 6] (by norm_num)).2.1⟩

/-- Folding the consolidation loop over exception-free batch outcomes
appends all their results. -/
theorem consolidate_ok_aux {ρ : Type} (rss : List (List ρ)) :
    ∀ acc : List ρ,
      ((rss.map (fun rs => (Except.ok rs : Except String (List ρ)))).foldl
        (fun acc br =>
          match br with
          | Except.ok rs => acc ++ rs
          | Except.error _ => acc) acc) = acc ++ rss.flatten := by
  induction rss with
  | nil =>
    intro acc
    simp
  | cons r rs ih =>
    intro acc
    simp only [List.map_cons, List.foldl_cons]
    rw [ih (acc ++ r), List.flatten_cons, List.append_assoc]

/-- On exception-free batch outcomes the consolidation loop returns the
join of the per-batch result lists. -/
theorem consolidateBatchResults_ok {ρ : Type} (rss : List (List ρ)) :
    consolidateBatchResults
      (rss.map (fun rs => (Except.ok rs : Except String (List ρ)))) = rss.flatten := by
  simpa using consolidate_ok_aux rss []

/-- C2 counterexample: two submitted items split into two batches of one;
the first batch task raises (for example a batch-wide persistence failure)
and the v1 consolidation loop skips it with continue, so the returned list
holds a single result for two submitted items — the failed batch items are
silently dropped rather than marked failed. -/
theorem batch_exception_drops_items :
    createBatches 1 [hotelAEx, hotelBEx] = [[hotelAEx], [hotelBEx]] ∧
    consolidateBatchResults
      [Except.error "batch persistence failure", Except.ok [consolidatedBEx]] =
      [consolidatedBEx] ∧
    (consolidateBatchResults
      [Except.error "batch persistence failure", Except.ok [consolidatedBEx]]).length <
      [hotelAEx, hotelBEx].length := by
  refine ⟨by simp [createBatches], rfl, by norm_num [consolidateBatchResults]⟩

/-- C2 amended: the DB variant converts a batch-level exception into zero
successes and one error per item of the batch while processing continues,
and — absent batch exceptions — the v1 consolidation enumerates exactly one
result per submitted item, in order, with no duplicates and no omissions;
but a v1 batch whose task raises has its items dropped from the returned
list instead of being marked failed. -/
theorem batch_failure_accounting_and_enumeration :
    (∀ (batch : List HotelData) (e : String),
      processAndSaveBatchCounts batch (Except.error e) = (0, batch.length)) ∧
    (∀ (B : Nat) (l : List HotelData) (f : HotelData → ConsolidatedResult),
      consolidateBatchResults
        ((createBatches (B + 1) l).map
          (fun b => (Except.ok (b.map f) : Except String (List ConsolidatedResult)))) =
        l.map f) := by
  constructor
  · intro batch e
    rfl
  · intro B l f
    have h1 : (createBatches (B + 1) l).map
        (fun b => (Except.ok (b.map f) : Except String (List ConsolidatedResult))) =
        ((createBatches (B + 1) l).map (List.map f)).map
          (fun rs => (Except.ok rs : Except String (List ConsolidatedResult))) := by
      simp [List.map_map]
    rw [h1, consolidateBatchResults_ok]
    rw [← List.map_flatten]
    rw [createBatches_join (B + 1) (Nat.succ_pos B) l]

/-- The consolidated success flag equals the disjunction of the per-source
success criteria the consolidator checks. -/
theorem consolidate_success_eq (hd : HotelData) (res : SourceResults) :
    (consolidateHotelResults hd res).success =
      (cventSucceeded res.cvent || gmapsSucceeded res.gmaps ||
        websiteSucceeded res.website) := by
  rcases res with ⟨c, g, w⟩
  rcases c with _ | c <;> rcases g with _ | g <;>
    rcases w with _ | ⟨ws, wd, we⟩ <;>
    (try rcases wd with _ | d) <;>
    (try cases ws) <;>
    simp only [consolidateHotelResults, cventSucceeded, gmapsSucceeded, websiteSucceeded] <;>
    (try split_ifs) <;>
    simp_all [List.isEmpty_iff]

/-- C1 counterexample: in the DB pipeline, a work item whose enabled Phase-1
sources both fail (their tasks raise timeouts) still gets success = true,
because _process_single_hotel sets the flag unconditionally once its body
runs to completion. -/
theorem db_item_success_despite_all_failures :
    (processSingleHotelDb true true false hotelAEx
      (Except.error "Timeout Cvent (120s)") (Except.error "Timeout GMaps (90s)")
      (Except.error "not run")).success = true ∧
    (processSingleHotelDb true true false hotelAEx
      (Except.error "Timeout Cvent (120s)") (Except.error "Timeout GMaps (90s)")
      (Except.error "not run")).cventData = none ∧
    (processSingleHotelDb true true false hotelAEx
      (Except.error "Timeout Cvent (120s)") (Except.error "Timeout GMaps (90s)")
      (Except.error "not run")).gmapsData = none :=
  ⟨rfl, rfl, rfl⟩

/-- C1 amended: in the v1 consolidation the overall success flag is true iff
at least one enabled source satisfied its per-source success criterion, and
in the A-fails-B-succeeds scenario the result carries the successful source
payload together with the recorded error of the failed one; the DB variant
instead reports per-item success whenever its consolidation body completes,
even when every source failed. -/
theorem consolidated_success_policy :
    (∀ (hd : HotelData) (res : SourceResults),
      (consolidateHotelResults hd res).success = true ↔
        (cventSucceeded res.cvent = true ∨ gmapsSucceeded res.gmaps = true ∨
          websiteSucceeded res.website = true)) ∧
    (∀ (hd : HotelData) (c : CventResult) (g : GmapsResult),
      c.success = false → g.extractionStatus = "success" →
      (consolidateHotelResults hd ⟨some c, some g, none⟩).success = true ∧
      (consolidateHotelResults hd ⟨some c, some g, none⟩).gmapsData = some g ∧
      ("Cvent: " ++ c.error.getD "Erreur inconnue") ∈
        (consolidateHotelResults hd ⟨some c, some g, none⟩).errors) := by
  constructor
  · intro hd res
    rw [consolidate_success_eq]
    simp only [Bool.or_eq_true]
    tauto
  · intro hd c g hcf hgs
    refine ⟨?_, ?_, ?_⟩ <;>
      simp [consolidateHotelResults, hcf, hgs]

/-- Witness for the amended C1: a failed Cvent extraction next to a
successful Google Maps extraction yields overall success with the Google
Maps payload kept and the Cvent error recorded. -/
theorem consolidated_success_policy_witness :
    (consolidateHotelResults hotelAEx ⟨some cventFailEx, some gmapsOkEx, none⟩).success = true ∧
    (consolidateHotelResults hotelAEx
      ⟨some cventFailEx, some gmapsOkEx, none⟩).gmapsData = some gmapsOkEx ∧
    ("Cvent: " ++ cventFailEx.error.getD "Erreur inconnue") ∈
      (consolidateHotelResults hotelAEx ⟨some cventFailEx, some gmapsOkEx, none⟩).errors :=
  consolidated_success_policy.2 hotelAEx cventFailEx gmapsOkEx rfl rfl

/-- Appending a fresh key to a map without it makes it found. -/
theorem lookup_append_single {α : Type} (k : String) (v : CacheEntry α)
    (d : List (String × CacheEntry α)) (h : d.lookup k = none) :
    (d ++ [(k, v)]).lookup k = some v := by
  induction d with
  | nil => simp [List.lookup]
  | cons p rest ih =>
    rcases p with ⟨a, w⟩
    by_cases hk : (k == a) = true
    · simp [List.lookup, hk] at h
    · simp only [Bool.not_eq_true] at hk
      simp only [List.cons_append, List.lookup, hk] at h ⊢
      exact ih h

/-- Replacing the entry of a present key in place makes the new value
found. -/
theorem lookup_map_replace {α : Type} (k : String) (v : CacheEntry α)
    (d : List (String × CacheEntry α)) (h : (d.lookup k).isSome = true) :
    (d.map (fun p => if p.1 = k then (k, v) else p)).lookup k = some v := by
  induction d with
  | nil => simp [List.lookup] at h
  | cons p rest ih =>
    rcases p with ⟨a, w⟩
    by_cases hk : a = k
    · subst hk
      rw [List.map_cons]
      rw [show (if (a, w).1 = a then (a, v) else ((a, w) : String × CacheEntry α)) =
        (a, v) from by simp]
      simp [List.lookup]
    · have hk2 : (k == a) = false := by
        simp only [beq_eq_false_iff_ne, ne_eq]
        intro he
        exact hk he.symm
      simp only [List.lookup, hk2] at h
      simp only [List.map_cons]
      rw [if_neg (show ¬(a, w).1 = k from hk)]
      simp only [List.lookup, hk2]
      exact ih h

/-- Python dict assignment makes the assigned value the one found. -/
theorem lookup_dictInsert {α : Type} (k : String) (v : CacheEntry α)
    (d : List (String × CacheEntry α)) : (dictInsert k v d).lookup k = some v := by
  unfold dictInsert
  by_cases h : (d.lookup k).isSome = true
  · rw [if_pos h]
    exact lookup_map_replace k v d h
  · rw [if_neg h]
    refine lookup_append_single k v d ?_
    rcases he : d.lookup k with _ | e
    · rfl
    · rw [he] at h
      simp at h

/-- Python del makes the key no longer found. -/
theorem lookup_dictErase {α : Type} (k : String)
    (d : List (String × CacheEntry α)) : (dictErase k d).lookup k = none := by
  unfold dictErase
  induction d with
  | nil => rfl
  | cons p rest ih =>
    rcases p with ⟨a, w⟩
    by_cases hk : a = k
    · simp only [List.filter_cons, hk]
      simpa using ih
    · have hk2 : (k == a) = false := by
        simp [beq_eq_false_iff_ne]
        intro he
        exact hk he.symm
      simp only [List.filter_cons]
      rw [if_pos (by simpa using hk)]
      simp only [List.lookup, hk2]
      exact ih

/-- C4: set followed by an immediate get of the same key returns the stored
value (set replaces any existing entry); a get of an entry whose age exceeds
its ttl returns a miss, counts one expired and one miss, and evicts the
entry; and a get of an entry whose age is at most its ttl returns the stored
value and counts a hit. -/
theorem cache_ttl_semantics {α : Type} (st : CacheState α) (now now2 : ℚ)
    (k : String) (v : α) (httl : 0 ≤ st.ttl) :
    ((cacheGet (cacheSet st now k v) now k).1 = some v) ∧
    (∀ e : CacheEntry α, st.data.lookup k = some e →
      now2 - e.timestamp > e.ttl.getD st.ttl →
      (cacheGet st now2 k).1 = none ∧
      (cacheGet st now2 k).2.expired = st.expired + 1 ∧
      (cacheGet st now2 k).2.misses = st.misses + 1 ∧
      (cacheGet st now2 k).2.data.lookup k = none) ∧
    (∀ e : CacheEntry α, st.data.lookup k = some e →
      now2 - e.timestamp ≤ e.ttl.getD st.ttl →
      (cacheGet st now2 k).1 = some e.value ∧
      (cacheGet st now2 k).2.hits = st.hits + 1) := by
  refine ⟨?_, ?_, ?_⟩
  · have hl := lookup_dictInsert k (⟨now, v, some st.ttl⟩ : CacheEntry α) st.data
    unfold cacheGet cacheSet
    dsimp only
    rw [hl]
    dsimp only [Option.getD]
    rw [if_neg (by simp only [sub_self]; exact not_lt.mpr httl)]
  · intro e he hgt
    unfold cacheGet
    rw [he]
    dsimp only
    rw [if_pos hgt]
    exact ⟨rfl, rfl, rfl, lookup_dictErase k st.data⟩
  · intro e he hle
    unfold cacheGet
    rw [he]
    dsimp only
    rw [if_neg (not_lt.mpr hle)]
    exact ⟨rfl, rfl⟩

/-- Witness for C4: set-then-get returns the value on a fresh cache, and a
get at instant 11 of an entry written at instant 0 with ttl 10 misses,
counts one expired miss, and leaves the key absent. -/
theorem cache_ttl_semantics_witness :
    (cacheGet (cacheSet cacheEx 0 "k" 42) 0 "k").1 = some 42 ∧
    (cacheGet cacheExpiredEx 11 "k").1 = none ∧
    (cacheGet cacheExpiredEx 11 "k").2.expired = 1 ∧
    (cacheGet cacheExpiredEx 11 "k").2.misses = 1 ∧
    (cacheGet cacheExpiredEx 11 "k").2.data.lookup "k" = none := by
  have h1 := cache_ttl_semantics cacheEx 0 0 "k" (42 : Nat) (by norm_num [cacheEx])
  have h2 := cache_ttl_semantics cacheExpiredEx 11 11 "k" (0 : Nat) (by norm_num [cacheExpiredEx])
  have he : cacheExpiredEx.data.lookup "k" = some ⟨0, 42, some 10⟩ := by rfl
  have h2e := h2.2.1 ⟨0, 42, some 10⟩ he (by norm_num)
  exact ⟨h1.1, h2e.1, by simpa [cacheExpiredEx] using h2e.2.1,
    by simpa [cacheExpiredEx] using h2e.2.2.1, h2e.2.2.2⟩

/-- Completed and failed rows are disjoint, so their counts never exceed the
row count. -/
theorem countStatus_completed_add_failed_le (hotels : List HotelRowStatus) :
    countStatus hotels HotelRowStatus.completed +
      countStatus hotels HotelRowStatus.failed ≤ hotels.length := by
  induction hotels with
  | nil => simp [countStatus]
  | cons x hs ih =>
    simp only [countStatus, List.filter_cons, List.length_cons] at ih ⊢
    cases x <;> simp_all <;> omega

/-- A success finalization of a session with at least one persisted row
always ends with status completed. -/
theorem finalize_success_nonempty_completed (hotels : List HotelRowStatus)
    (d sc sf : Nat) (hne : hotels ≠ []) :
    (finalizeSession hotels d true none none sc sf).status = "completed" := by
  have hpos : 0 < hotels.length := List.length_pos.mpr hne
  unfold finalizeSession
  dsimp only [ensureInt]
  simp only [eq_self_iff_true, true_and]
  split_ifs <;> first | rfl | omega

/-- A failure finalization with no explicit counts always ends with status
failed. -/
theorem finalize_failure_status (hotels : List HotelRowStatus) (d sc sf : Nat) :
    (finalizeSession hotels d false none none sc sf).status = "failed" := by
  unfold finalizeSession
  dsimp only [ensureInt]
  simp only [Bool.false_eq_true, false_and, if_false]
  split_ifs <;> rfl

/-- C5: a processing session whose last activity lapsed the inactivity
threshold is finalized by the watchdog with terminal status failed when the
store holds zero persisted items (never completed), and with status
completed when it holds at least one. -/
theorem watchdog_terminal_status (session : SessionRecord)
    (hotels : List HotelRowStatus) (now : ℚ) (sc sf : Nat)
    (hstatus : session.status = "processing")
    (hinactive : isSessionTrulyInactive session.lastActivity now = true) :
    ∃ out, watchdogStep session hotels now sc sf = some out ∧
      out.status = (if hotels.isEmpty then "failed" else "completed") := by
  unfold watchdogStep
  rw [if_pos hstatus, if_pos hinactive]
  dsimp only
  by_cases hne : hotels = []
  · subst hne
    refine ⟨finalizeSession [] session.totalHotels false none none sc sf, ?_, ?_⟩
    · simp [countStatus]
    · simp [finalize_failure_status]
  · have hpos : 0 < hotels.length := List.length_pos.mpr hne
    refine ⟨finalizeSession hotels session.totalHotels true none none sc sf, ?_, ?_⟩
    · by_cases hcomp : countStatus hotels HotelRowStatus.completed = hotels.length ∧
        hotels.length > 0
      · rw [if_pos hcomp]
      · rw [if_neg hcomp, if_pos hpos]
    · rw [if_neg (by simpa [List.isEmpty_iff] using hne)]
      exact finalize_success_nonempty_completed hotels session.totalHotels sc sf hne

/-- Witness for C5: a stuck processing session with no persisted items,
inactive for five minutes, is finalized as failed. -/
theorem watchdog_terminal_status_witness :
    ∃ out, watchdogStep sessionStuckEx [] 300 0 0 = some out ∧
      out.status = (if ([] : List HotelRowStatus).isEmpty then "failed" else "completed") :=
  watchdog_terminal_status sessionStuckEx [] 300 0 0 rfl
    (by norm_num [isSessionTrulyInactive, sessionStuckEx])

/-- C6 counterexample: the stuck session declares 500 items while the store
holds zero, and the watchdog finalization corrects the declared total to 0
but sets status failed, not completed — so an actual-versus-declared
mismatch does not always finalize as completed. -/
theorem mismatch_finalized_failed :
    sessionStuckEx.totalHotels = 500 ∧
    watchdogStep sessionStuckEx [] 300 0 0 =
      some { status := "failed", processedHotels := 0, totalHotels := 0 } := by
  constructor
  · rfl
  · norm_num [watchdogStep, isSessionTrulyInactive, sessionStuckEx, finalizeSession,
      ensureInt, countStatus]

/-- C6 amended: after finalization the processed count never exceeds the
recorded total; whenever the persisted actual item count differs from the
declared total, the declared total is corrected to the actual count; and a
success finalization of a nonempty mismatched session ends completed with
processed equal to the persisted completed-plus-failed count (or the full
actual count when that sum is zero). -/
theorem finalize_reconciliation_invariants :
    (∀ (hotels : List HotelRowStatus) (d : Nat) (succ : Bool)
        (scnt ecnt : Option ℤ) (sc sf : Nat),
      (finalizeSession hotels d succ scnt ecnt sc sf).processedHotels ≤
        (finalizeSession hotels d succ scnt ecnt sc sf).totalHotels) ∧
    (∀ (hotels : List HotelRowStatus) (d : Nat) (succ : Bool)
        (scnt ecnt : Option ℤ) (sc sf : Nat), hotels.length ≠ d →
      (finalizeSession hotels d succ scnt ecnt sc sf).totalHotels = hotels.length) ∧
    (∀ (hotels : List HotelRowStatus) (d sc sf : Nat), hotels ≠ [] →
        hotels.length ≠ d →
      (finalizeSession hotels d true none none sc sf).status = "completed" ∧
      (finalizeSession hotels d true none none sc sf).processedHotels =
        (if countStatus hotels HotelRowStatus.completed +
            countStatus hotels HotelRowStatus.failed = 0
         then hotels.length
         else countStatus hotels HotelRowStatus.completed +
            countStatus hotels HotelRowStatus.failed)) := by
  refine ⟨?_, ?_, ?_⟩
  · intro hotels d succ scnt ecnt sc sf
    unfold finalizeSession
    dsimp only
    cases succ <;>
      simp only [Bool.false_eq_true, false_and, if_false, eq_self_iff_true, true_and] <;>
      split_ifs <;> dsimp only <;> omega
  · intro hotels d succ scnt ecnt sc sf hmis
    unfold finalizeSession
    dsimp only
    cases succ <;>
      simp only [Bool.false_eq_true, false_and, if_false, eq_self_iff_true, true_and] <;>
      split_ifs <;> first | rfl | omega
  · intro hotels d sc sf hne hmis
    have hpos : 0 < hotels.length := List.length_pos.mpr hne
    have hle := countStatus_completed_add_failed_le hotels
    constructor
    · exact finalize_success_nonempty_completed hotels d sc sf hne
    · unfold finalizeSession
      dsimp only [ensureInt]
      simp only [eq_self_iff_true, true_and]
      split_ifs <;> first | rfl | omega

/-- Counting the replicated status over a replicate list gives its length. -/
theorem countStatus_replicate_self (n : Nat) (s : HotelRowStatus) :
    countStatus (List.replicate n s) s = n := by
  induction n with
  | zero => rfl
  | succ m ih =>
    simp only [countStatus, List.replicate_succ, List.filter_cons, decide_eq_true_eq,
      if_pos rfl] at ih ⊢
    simp [ih]

/-- Counting a different status over a replicate list gives zero. -/
theorem countStatus_replicate_ne (n : Nat) (s t : HotelRowStatus) (h : s ≠ t) :
    countStatus (List.replicate n s) t = 0 := by
  induction n with
  | zero => rfl
  | succ m ih =>
    simp only [countStatus, List.replicate_succ, List.filter_cons] at ih ⊢
    rw [if_neg (by simpa using h)]
    exact ih

/-- Witness for the amended C6 at the spec scenario: 250 persisted completed
items against a declared total of 500 finalize as completed with the total
corrected to 250 and 250 processed. -/
theorem finalize_reconciliation_invariants_witness :
    (finalizeSession (List.replicate 250 HotelRowStatus.completed) 500 true
      none none 0 0).status = "completed" ∧
    (finalizeSession (List.replicate 250 HotelRowStatus.completed) 500 true
      none none 0 0).totalHotels = 250 ∧
    (finalizeSession (List.replicate 250 HotelRowStatus.completed) 500 true
      none none 0 0).processedHotels = 250 := by
  have hlen : (List.replicate 250 HotelRowStatus.completed).length = 250 :=
    List.length_replicate 250 HotelRowStatus.completed
  have hne : List.replicate 250 HotelRowStatus.completed ≠ [] := by
    intro h0
    rw [h0] at hlen
    exact absurd hlen (by norm_num)
  have hmis : (List.replicate 250 HotelRowStatus.completed).length ≠ 500 := by
    rw [hlen]
    norm_num
  have h := finalize_reconciliation_invariants
  have h3 := h.2.2 (List.replicate 250 HotelRowStatus.completed) 500 0 0 hne hmis
  have h2 := h.2.1 (List.replicate 250 HotelRowStatus.completed) 500 true
    none none 0 0 hmis
  refine ⟨h3.1, h2.trans hlen, ?_⟩
  rw [h3.2, countStatus_replicate_self,
    countStatus_replicate_ne 250 HotelRowStatus.completed HotelRowStatus.failed (by simp),
    hlen]
  norm_num

end Aleou
